import Mathlib

/-!
Verification of the AuraFlow PWA icon generator
(`src/webapp/icons/generate-pwa-icons.py`).

The script draws a square RGB image: a vertical gradient, rounded corners
via a mask composite, a calendar card (body and header rounded rectangles)
and three rows of event dots, then saves the result as a PNG file.

The embedding below translates the script at exact integer semantics:
Python's `int(x * 0.15)` style truncations of nonnegative values coincide
with Nat floor division by the corresponding rational constant (for every
parameter of this script the float computation agrees with the exact
value; the sole exception, `int(dot_spacing * 0.7)`, can differ from the
exact value by one pixel at rare large sizes, which none of the proved
bounds are sensitive to).  PIL drawing primitives are modelled by their
documented geometric semantics: a filled ellipse is a disk test, a filled
rounded rectangle is a rectangle minus the four corner square regions
outside the corner disks, and a paste through a mask selects the
foreground pixel exactly where the mask region holds.
-/

namespace AuraFlow

/-- An 8-bit RGB color triple. -/
structure RGB where
  r : Nat
  g : Nat
  b : Nat
deriving DecidableEq

/-- A raster image: dimensions plus a pixel function. -/
structure Image where
  width : Nat
  height : Nat
  px : Nat → Nat → RGB

/-- White, the fallback background used outside the rounded mask and for the header. -/
def white : RGB := ⟨255, 255, 255⟩

/-- Light gray, the calendar body fill. -/
def light_gray : RGB := ⟨242, 242, 242⟩

/-- Primary purple, the first gradient color and the row 1 and 3 dot color. -/
def purple : RGB := ⟨102, 110, 234⟩

/-- Secondary purple, the second gradient color and the row 2 dot color. -/
def dark_purple : RGB := ⟨118, 75, 162⟩

/-! ### Geometry parameters (source: `draw_calendar_icon`) -/

/-- Source: `safe_zone = int(size * 0.2)`. -/
def safe_zone (size : Nat) : Nat := size / 5

/-- Source: `content_size = size - (safe_zone * 2)`. -/
def content_size (size : Nat) : Nat := size - 2 * safe_zone size

/-- Source: `padding = int(content_size * 0.2)`. -/
def padding (size : Nat) : Nat := content_size size / 5

/-- Source: `cal_width = content_size - (padding * 2)`. -/
def cal_width (size : Nat) : Nat := content_size size - 2 * padding size

/-- Source: `cal_height = int(cal_width * 0.9)`. -/
def cal_height (size : Nat) : Nat := 9 * cal_width size / 10

/-- Source: `cal_x = content_x + padding` with `content_x = safe_zone`. -/
def cal_x (size : Nat) : Nat := safe_zone size + padding size

/-- Source: `cal_y = content_y + int(content_size * 0.15)` with `content_y = safe_zone`. -/
def cal_y (size : Nat) : Nat := safe_zone size + 3 * content_size size / 20

/-- Source: `cal_radius = int(size * 0.04)`. -/
def cal_radius (size : Nat) : Nat := size / 25

/-- Source: `bg_radius = int(size * 0.15)`. -/
def bg_radius (size : Nat) : Nat := 3 * size / 20

/-- Source: `header_height = int(cal_height * 0.2)`. -/
def header_height (size : Nat) : Nat := cal_height size / 5

/-- Source: `dot_size = int(cal_width * 0.08)`. -/
def dot_size (size : Nat) : Nat := 2 * cal_width size / 25

/-- Source: `dot_spacing = cal_width // 4`. -/
def dot_spacing (size : Nat) : Nat := cal_width size / 4

/-- Source: `start_x = cal_x + int(dot_spacing * 0.7)`. -/
def start_x (size : Nat) : Nat := cal_x size + 7 * dot_spacing size / 10

/-- Source: `start_y = cal_y + int(cal_height * 0.4)`. -/
def start_y (size : Nat) : Nat := cal_y size + 2 * cal_height size / 5

/-- Center y of the first dot row. -/
def row1_y (size : Nat) : Nat := start_y size

/-- Center y of the second dot row (`y = start_y + dot_spacing`). -/
def row2_y (size : Nat) : Nat := start_y size + dot_spacing size

/-- Center y of the third dot row (`y = start_y + dot_spacing * 2`). -/
def row3_y (size : Nat) : Nat := start_y size + 2 * dot_spacing size

/-! ### Gradient colors (source: the scanline loop of `draw_calendar_icon`) -/

/-- The fill color of scanline `y`: channel-wise
`int(A + (B - A) * (y / size))` for A = (102,110,234) and B = (118,75,162),
written with exact integer truncation. -/
def grad_color (size y : Nat) : RGB :=
  ⟨(102 * size + 16 * y) / size,
   (110 * size - 35 * y) / size,
   (234 * size - 72 * y) / size⟩

/-! ### Regions of PIL drawing primitives -/

/-- Membership in the closed disk of the given radius, used for the filled
ellipses that draw the dots and for rounded-rectangle corners. -/
def in_disk (cx cy rad x y : Int) : Bool :=
  decide ((x - cx) * (x - cx) + (y - cy) * (y - cy) ≤ rad * rad)

/-- Membership in a filled rounded rectangle with corners `(x0, y0)` to
`(x1, y1)` and the given corner radius: inside the rectangle, and inside
the corner disk whenever the point lies in one of the four corner squares. -/
def in_rounded_rect (x0 y0 x1 y1 rad x y : Int) : Bool :=
  decide (x0 ≤ x ∧ x ≤ x1 ∧ y0 ≤ y ∧ y ≤ y1 ∧
    (x < x0 + rad ∧ y < y0 + rad → in_disk (x0 + rad) (y0 + rad) rad x y = true) ∧
    (x1 - rad < x ∧ y < y0 + rad → in_disk (x1 - rad) (y0 + rad) rad x y = true) ∧
    (x < x0 + rad ∧ y1 - rad < y → in_disk (x0 + rad) (y1 - rad) rad x y = true) ∧
    (x1 - rad < x ∧ y1 - rad < y → in_disk (x1 - rad) (y1 - rad) rad x y = true))

/-- Source: `create_rounded_rectangle_mask(size, radius)`; the mask region is the
rounded rectangle from `(0, 0)` to `(size - 1, size - 1)`. -/
def create_rounded_rectangle_mask (size radius : Nat) : Nat → Nat → Bool :=
  fun x y => in_rounded_rect 0 0 ((size : Int) - 1) ((size : Int) - 1) radius x y

/-- The background mask actually used: radius `bg_radius`. -/
def mask_region (size : Nat) : Nat → Nat → Bool :=
  create_rounded_rectangle_mask size (bg_radius size)

/-- The calendar body rounded rectangle. -/
def body_region (size : Nat) (x y : Nat) : Bool :=
  in_rounded_rect (cal_x size) (cal_y size)
    ((cal_x size : Int) + cal_width size) ((cal_y size : Int) + cal_height size)
    (cal_radius size) x y

/-- The calendar header rounded rectangle. -/
def header_region (size : Nat) (x y : Nat) : Bool :=
  in_rounded_rect (cal_x size) (cal_y size)
    ((cal_x size : Int) + cal_width size) ((cal_y size : Int) + header_height size)
    (cal_radius size) x y

/-- First dot row: three dots at `x = start_x + i * dot_spacing`. -/
def row1_region (size : Nat) (x y : Nat) : Bool :=
  in_disk (start_x size) (row1_y size) (dot_size size) x y ||
  in_disk ((start_x size : Int) + dot_spacing size) (row1_y size) (dot_size size) x y ||
  in_disk ((start_x size : Int) + 2 * (dot_spacing size : Int)) (row1_y size) (dot_size size) x y

/-- Second dot row: three dots, one `dot_spacing` lower. -/
def row2_region (size : Nat) (x y : Nat) : Bool :=
  in_disk (start_x size) (row2_y size) (dot_size size) x y ||
  in_disk ((start_x size : Int) + dot_spacing size) (row2_y size) (dot_size size) x y ||
  in_disk ((start_x size : Int) + 2 * (dot_spacing size : Int)) (row2_y size) (dot_size size) x y

/-- Third dot row: two dots, two `dot_spacing` lower. -/
def row3_region (size : Nat) (x y : Nat) : Bool :=
  in_disk (start_x size) (row3_y size) (dot_size size) x y ||
  in_disk ((start_x size : Int) + dot_spacing size) (row3_y size) (dot_size size) x y

/-! ### Image construction -/

/-- Source: `Image.new(mode, (w, h), c)`, a constant image. -/
def Image.new (w h : Nat) (c : RGB) : Image := ⟨w, h, fun _ _ => c⟩

/-- Source: `draw.line([(0, y), (size, y)], fill=c)`; overwrite scanline `y`. -/
def draw_hline (img : Image) (y : Nat) (c : RGB) : Image :=
  ⟨img.width, img.height, fun x0 y0 => if y0 = y then c else img.px x0 y0⟩

/-- Source: `draw.rounded_rectangle` or `draw.ellipse` with a fill color; overwrite
every pixel of the region. -/
def fill_region (img : Image) (region : Nat → Nat → Bool) (c : RGB) : Image :=
  ⟨img.width, img.height, fun x y => if region x y then c else img.px x y⟩

/-- Source: `rounded_img.paste(img, (0, 0), mask)`; select the pasted image where
the mask holds, the background elsewhere. -/
def paste_masked (bg fg : Image) (mask : Nat → Nat → Bool) : Image :=
  ⟨bg.width, bg.height, fun x y => if mask x y then fg.px x y else bg.px x y⟩

/-- The `for y in range(size)` gradient loop: scanlines `0 .. n-1` drawn in order. -/
def grad_loop (size : Nat) : Nat → Image → Image
  | 0, img => img
  | n + 1, img => draw_hline (grad_loop size n img) n (grad_color size n)

/-- The gradient image before corner rounding: a fresh black RGB canvas with
all `size` scanlines drawn. -/
def gradient_stage (size : Nat) : Image :=
  grad_loop size size (Image.new size size ⟨0, 0, 0⟩)

/-- Source: `draw_calendar_icon(size)`; gradient, rounded-corner composite over
white, calendar body, header, and the three dot rows in drawing order. -/
def draw_calendar_icon (size : Nat) : Image :=
  let rounded := paste_masked (Image.new size size white) (gradient_stage size) (mask_region size)
  let with_body := fill_region rounded (body_region size) light_gray
  let with_header := fill_region with_body (header_region size) white
  let with_row1 := fill_region with_header (row1_region size) purple
  let with_row2 := fill_region with_row1 (row2_region size) dark_purple
  fill_region with_row2 (row3_region size) purple

/-- The pixel of the finished icon at `(x, y)`. -/
def icon_px (size x y : Nat) : RGB := (draw_calendar_icon size).px x y

/-! ### Program model (source: import guard, `generate_icon`, `__main__`) -/

/-- File contents, abstract bytes. -/
abbrev FileData := List Nat

/-- The files of the working directory, newest write first. -/
abbrev World := List (String × FileData)

/-- Write a file (overwriting any previous entry with that name). -/
def save_file (w : World) (name : String) (data : FileData) : World :=
  (name, data) :: w

/-- Look up the current contents of a file. -/
def lookup_file (w : World) (name : String) : Option FileData :=
  match w with
  | [] => none
  | (n, d) :: rest => if n = name then some d else lookup_file rest name

/-- Source: the filename format string, rendered as icon-, the size, then .png. -/
def icon_name (size : Nat) : String := "icon-" ++ toString size ++ ".png"

/-- Source: `generate_icon(size)`; draw the icon and save it, the saved bytes given
by a PNG encoder `enc` applied to the drawn image. -/
def generate_icon (enc : Image → FileData) (size : Nat) (w : World) : World :=
  save_file w (icon_name size) (enc (draw_calendar_icon size))

/-- Message printed when the PIL import fails. -/
def pil_missing_msg : String := "PIL/Pillow not available."

/-- Manual fallback instruction printed when the PIL import fails. -/
def manual_msg : String :=
  "Please open generate-pwa-icons.html in your browser to generate icons manually."

/-- Banner printed at the start of a run. -/
def intro_msg : String := "Generating PWA icons for AuraFlow..."

/-- Per-size progress line. -/
def generating_msg (size : Nat) : String :=
  "Generating " ++ toString size ++ "x" ++ toString size ++ " icon..."

/-- Per-size success line. -/
def created_msg (size : Nat) : String := "✓ Created " ++ icon_name size

/-- Top-level error report. -/
def error_msg (e : String) : String := "Error generating icons: " ++ e

/-- Fallback advice printed after a generation failure. -/
def fallback_msg : String :=
  "Fallback: Please open generate-pwa-icons.html in your browser to generate icons manually."

/-- Final success summary. -/
def success_msg : String := "✓ All PWA icons generated successfully!"

/-- Final maskable-requirements note. -/
def maskable_msg : String :=
  "Icons meet PWA maskable requirements with 20% safe zone padding."

/-- The whole program run.  `pil` is whether the PIL import succeeds; `fail`
is an exception oracle giving the message of an exception raised while
generating a given size, if any.  Returns the final files, the exit code
and the printed lines. -/
def run_program (pil : Bool) (enc : Image → FileData) (fail : Nat → Option String)
    (w : World) : World × Nat × List String :=
  match pil with
  | false => (w, 0, [pil_missing_msg, manual_msg])
  | true =>
    match fail 192 with
    | some e => (w, 1, [intro_msg, generating_msg 192, error_msg e, fallback_msg])
    | none =>
      let w1 := generate_icon enc 192 w
      match fail 512 with
      | some e =>
        (w1, 1, [intro_msg, generating_msg 192, created_msg 192,
                 generating_msg 512, error_msg e, fallback_msg])
      | none =>
        let w2 := generate_icon enc 512 w1
        (w2, 0, [intro_msg, generating_msg 192, created_msg 192,
                 generating_msg 512, created_msg 512, success_msg, maskable_msg])

/-! ### Specification-side definitions used for comparison -/

/-- The gradient blend exactly as the specification words it: channel
`A + (B - A) * t` at `t = y / size`, truncated to integer, with the signed
channel difference.  Stated over the integers and compared with the
source-translated `grad_color`. -/
def spec_blend (size y : Nat) : RGB :=
  ⟨((102 * (size : Int) + (118 - 102) * (y : Int)) / (size : Int)).toNat,
   ((110 * (size : Int) + (75 - 110) * (y : Int)) / (size : Int)).toNat,
   ((234 * (size : Int) + (162 - 234) * (y : Int)) / (size : Int)).toNat⟩

/-- Rounding `num / den` to the nearest integer, the radius rule claimed by
the specification for the background mask. -/
def round_nearest (num den : Nat) : Nat := (2 * num + den) / (2 * den)

/-! ### Helper lemmas -/

/-- Drawing one scanline changes only that scanline. -/
theorem draw_hline_px (img : Image) (y c x0 y0) :
    (draw_hline img y c).px x0 y0 = if y0 = y then c else img.px x0 y0 := rfl

/-- After drawing the first `n` scanlines, every scanline `y < n` holds its
gradient color. -/
theorem grad_loop_px (size : Nat) :
    ∀ (n : Nat) (img : Image) (x y : Nat), y < n →
      (grad_loop size n img).px x y = grad_color size y := by
  intro n
  induction n with
  | zero => intro img x y h; exact absurd h (Nat.not_lt_zero y)
  | succ k ih =>
    intro img x y h
    by_cases hy : y = k
    · subst hy
      simp [grad_loop, draw_hline_px]
    · have hlt : y < k := by omega
      simp only [grad_loop, draw_hline_px, if_neg hy]
      exact ih img x y hlt

/-- A pixel of the finished gradient stage, for coordinates inside the canvas. -/
theorem gradient_stage_px (size x y : Nat) (hy : y < size) :
    (gradient_stage size).px x y = grad_color size y :=
  grad_loop_px size size (Image.new size size ⟨0, 0, 0⟩) x y hy

/-- The source-translated gradient color agrees with the specification's
signed blend formula on every scanline of the canvas. -/
theorem grad_color_eq_spec_blend (size y : Nat) (h : y ≤ size) :
    grad_color size y = spec_blend size y := by
  unfold grad_color spec_blend
  have h1 : 102 * (size : Int) + (118 - 102) * (y : Int) = ((102 * size + 16 * y : Nat) : Int) := by
    push_cast; ring
  have h2 : 110 * (size : Int) + (75 - 110) * (y : Int) = ((110 * size - 35 * y : Nat) : Int) := by
    omega
  have h3 : 234 * (size : Int) + (162 - 234) * (y : Int) = ((234 * size - 72 * y : Nat) : Int) := by
    omega
  rw [h1, h2, h3, ← Int.natCast_div, ← Int.natCast_div, ← Int.natCast_div,
    Int.toNat_natCast, Int.toNat_natCast, Int.toNat_natCast]

/-- The finished icon pixel, written as the painter-order case split. -/
theorem icon_px_eq (size x y : Nat) :
    icon_px size x y =
      if row3_region size x y then purple
      else if row2_region size x y then dark_purple
      else if row1_region size x y then purple
      else if header_region size x y then white
      else if body_region size x y then light_gray
      else if mask_region size x y then (gradient_stage size).px x y
      else white := rfl

/-- A point strictly farther than the radius from the center along either
axis lies outside the disk. -/
theorem in_disk_false_of_far (cx cy rad x y : Int) (hrad : 0 ≤ rad)
    (h : rad < x - cx ∨ rad < cx - x ∨ rad < y - cy ∨ rad < cy - y) :
    in_disk cx cy rad x y = false := by
  simp only [in_disk, decide_eq_false_iff_not, not_le]
  rcases h with h | h | h | h
  · nlinarith [mul_self_nonneg (y - cy)]
  · nlinarith [mul_self_nonneg (y - cy)]
  · nlinarith [mul_self_nonneg (x - cx)]
  · nlinarith [mul_self_nonneg (x - cx)]

/-- A point at distance at least the (positive) radius from the center along
both axes at once lies outside the disk. -/
theorem in_disk_false_diag (cx cy rad x y : Int) (hrad : 0 < rad)
    (h1 : rad ≤ cx - x ∨ rad ≤ x - cx) (h2 : rad ≤ cy - y ∨ rad ≤ y - cy) :
    in_disk cx cy rad x y = false := by
  simp only [in_disk, decide_eq_false_iff_not, not_le]
  have hx2 : rad * rad ≤ (x - cx) * (x - cx) := by
    rcases h1 with h | h <;> nlinarith
  have hy2 : rad * rad ≤ (y - cy) * (y - cy) := by
    rcases h2 with h | h <;> nlinarith
  nlinarith

/-- A point left of the rectangle is outside the rounded rectangle. -/
theorem in_rr_false_left (x0 y0 x1 y1 rad x y : Int) (h : x < x0) :
    in_rounded_rect x0 y0 x1 y1 rad x y = false := by
  simp only [in_rounded_rect, decide_eq_false_iff_not]
  intro hm
  exact absurd hm.1 (by omega)

/-- A point right of the rectangle is outside the rounded rectangle. -/
theorem in_rr_false_right (x0 y0 x1 y1 rad x y : Int) (h : x1 < x) :
    in_rounded_rect x0 y0 x1 y1 rad x y = false := by
  simp only [in_rounded_rect, decide_eq_false_iff_not]
  intro hm
  exact absurd hm.2.1 (by omega)

/-- A point below the rectangle is outside the rounded rectangle. -/
theorem in_rr_false_below (x0 y0 x1 y1 rad x y : Int) (h : y1 < y) :
    in_rounded_rect x0 y0 x1 y1 rad x y = false := by
  simp only [in_rounded_rect, decide_eq_false_iff_not]
  intro hm
  exact absurd hm.2.2.2.1 (by omega)

/-- A point in the top-left corner square but outside the corner disk is
outside the rounded rectangle. -/
theorem in_rr_false_tl (x0 y0 x1 y1 rad x y : Int)
    (h1 : x < x0 + rad) (h2 : y < y0 + rad)
    (h3 : in_disk (x0 + rad) (y0 + rad) rad x y = false) :
    in_rounded_rect x0 y0 x1 y1 rad x y = false := by
  simp only [in_rounded_rect, decide_eq_false_iff_not]
  intro hm
  have := hm.2.2.2.2.1 ⟨h1, h2⟩
  rw [h3] at this
  exact Bool.noConfusion this

/-- A point in the top-right corner square but outside the corner disk is
outside the rounded rectangle. -/
theorem in_rr_false_tr (x0 y0 x1 y1 rad x y : Int)
    (h1 : x1 - rad < x) (h2 : y < y0 + rad)
    (h3 : in_disk (x1 - rad) (y0 + rad) rad x y = false) :
    in_rounded_rect x0 y0 x1 y1 rad x y = false := by
  simp only [in_rounded_rect, decide_eq_false_iff_not]
  intro hm
  have := hm.2.2.2.2.2.1 ⟨h1, h2⟩
  rw [h3] at this
  exact Bool.noConfusion this

/-- A point in the bottom-left corner square but outside the corner disk is
outside the rounded rectangle. -/
theorem in_rr_false_bl (x0 y0 x1 y1 rad x y : Int)
    (h1 : x < x0 + rad) (h2 : y1 - rad < y)
    (h3 : in_disk (x0 + rad) (y1 - rad) rad x y = false) :
    in_rounded_rect x0 y0 x1 y1 rad x y = false := by
  simp only [in_rounded_rect, decide_eq_false_iff_not]
  intro hm
  have := hm.2.2.2.2.2.2.1 ⟨h1, h2⟩
  rw [h3] at this
  exact Bool.noConfusion this

/-- A point in the bottom-right corner square but outside the corner disk is
outside the rounded rectangle. -/
theorem in_rr_false_br (x0 y0 x1 y1 rad x y : Int)
    (h1 : x1 - rad < x) (h2 : y1 - rad < y)
    (h3 : in_disk (x1 - rad) (y1 - rad) rad x y = false) :
    in_rounded_rect x0 y0 x1 y1 rad x y = false := by
  simp only [in_rounded_rect, decide_eq_false_iff_not]
  intro hm
  have := hm.2.2.2.2.2.2.2 ⟨h1, h2⟩
  rw [h3] at this
  exact Bool.noConfusion this

/-- A point of the rectangle whose x-coordinate clears the corner radius on
both sides is inside the rounded rectangle. -/
theorem in_rr_true_of_core (x0 y0 x1 y1 rad x y : Int)
    (hx0 : x0 ≤ x) (hx1 : x ≤ x1) (hy0 : y0 ≤ y) (hy1 : y ≤ y1)
    (hl : x0 + rad ≤ x) (hr : x ≤ x1 - rad) :
    in_rounded_rect x0 y0 x1 y1 rad x y = true := by
  simp only [in_rounded_rect, decide_eq_true_eq]
  refine ⟨hx0, hx1, hy0, hy1, ?_, ?_, ?_, ?_⟩ <;> intro hc <;> exact absurd hc.1 (by omega)

/-- A dot disk misses any point vertically farther than the dot radius from
its row. -/
theorem dot_false_of_y_far (size : Nat) (cx : Int) (cy x y : Nat)
    (h : (y : Int) + dot_size size < cy ∨ (cy : Int) + dot_size size < y) :
    in_disk cx cy (dot_size size) x y = false := by
  apply in_disk_false_of_far _ _ _ _ _ (Int.natCast_nonneg _)
  rcases h with h | h
  · right; right; right; omega
  · right; right; left; omega

/-- All three dot rows miss any point that lies above the first row's top
edge or below the third row's bottom edge. -/
theorem rows_false_of_y_far (size x y : Nat)
    (h : (y : Int) + dot_size size < row1_y size ∨ (row3_y size : Int) + dot_size size < y) :
    row1_region size x y = false ∧ row2_region size x y = false ∧
      row3_region size x y = false := by
  have e2 : (row2_y size : Int) = (row1_y size : Int) + dot_spacing size := by
    unfold row2_y row1_y; push_cast; ring
  have e3 : (row3_y size : Int) = (row1_y size : Int) + 2 * (dot_spacing size : Int) := by
    unfold row3_y row1_y; push_cast; ring
  have hsp : (0 : Int) ≤ (dot_spacing size : Int) := Int.natCast_nonneg _
  have h1 : (y : Int) + dot_size size < row1_y size ∨ (row1_y size : Int) + dot_size size < y := by
    omega
  have h2 : (y : Int) + dot_size size < row2_y size ∨ (row2_y size : Int) + dot_size size < y := by
    omega
  have h3 : (y : Int) + dot_size size < row3_y size ∨ (row3_y size : Int) + dot_size size < y := by
    omega
  refine ⟨?_, ?_, ?_⟩
  · simp only [row1_region, Bool.or_eq_false_iff]
    exact ⟨⟨dot_false_of_y_far size _ _ x y h1, dot_false_of_y_far size _ _ x y h1⟩,
      dot_false_of_y_far size _ _ x y h1⟩
  · simp only [row2_region, Bool.or_eq_false_iff]
    exact ⟨⟨dot_false_of_y_far size _ _ x y h2, dot_false_of_y_far size _ _ x y h2⟩,
      dot_false_of_y_far size _ _ x y h2⟩
  · simp only [row3_region, Bool.or_eq_false_iff]
    exact ⟨dot_false_of_y_far size _ _ x y h3, dot_false_of_y_far size _ _ x y h3⟩

/-- The gradient color of the top scanline is exactly the first gradient color. -/
theorem grad_color_zero (size : Nat) (hs : 0 < size) : grad_color size 0 = purple := by
  unfold grad_color purple
  have e : ∀ a : Nat, (a * size + 0) / size = a := fun a => by
    rw [Nat.add_zero, Nat.mul_div_cancel _ hs]
  have e2 : ∀ a : Nat, (a * size - 0) / size = a := fun a => by
    rw [Nat.sub_zero, Nat.mul_div_cancel _ hs]
  simp only [Nat.mul_zero, e, e2]

/-! ### Claim theorems -/

/-- C1: for every positive size and every scanline y in [0, size), every
pixel of row y of the image before corner rounding equals the
integer-truncated channel-wise linear blend of (102,110,234) and
(118,75,162) at ratio y/size; the top row equals (102,110,234); and as y
increases the red channel moves monotonically (non-strictly) up toward 118
while the green and blue channels move monotonically down toward 75 and
162. -/
theorem c1_gradient_rows (size : Nat) (hs : 0 < size) :
    (∀ x y, x < size → y < size → (gradient_stage size).px x y = spec_blend size y) ∧
    (∀ x, x < size → (gradient_stage size).px x 0 = purple) ∧
    (∀ x y₁ y₂, x < size → y₁ ≤ y₂ → y₂ < size →
      ((gradient_stage size).px x y₁).r ≤ ((gradient_stage size).px x y₂).r ∧
      ((gradient_stage size).px x y₂).g ≤ ((gradient_stage size).px x y₁).g ∧
      ((gradient_stage size).px x y₂).b ≤ ((gradient_stage size).px x y₁).b) := by
  refine ⟨?_, ?_, ?_⟩
  · intro x y hx hy
    rw [gradient_stage_px size x y hy, grad_color_eq_spec_blend size y (le_of_lt hy)]
  · intro x hx
    rw [gradient_stage_px size x 0 hs, grad_color_zero size hs]
  · intro x y₁ y₂ hx h12 h2
    have h1 : y₁ < size := lt_of_le_of_lt h12 h2
    rw [gradient_stage_px size x y₁ h1, gradient_stage_px size x y₂ h2]
    unfold grad_color
    exact ⟨Nat.div_le_div_right (by omega), Nat.div_le_div_right (by omega),
      Nat.div_le_div_right (by omega)⟩

/-- C1 witness at size 3, instantiating each conjunct at concrete pixels. -/
theorem c1_gradient_rows_witness :
    0 < 3 ∧ (gradient_stage 3).px 0 2 = spec_blend 3 2 ∧
      (gradient_stage 3).px 1 0 = purple ∧
      ((gradient_stage 3).px 2 1).r ≤ ((gradient_stage 3).px 2 2).r :=
  ⟨by decide, (c1_gradient_rows 3 (by decide)).1 0 2 (by decide) (by decide),
    (c1_gradient_rows 3 (by decide)).2.1 1 (by decide),
    ((c1_gradient_rows 3 (by decide)).2.2 2 1 2 (by decide) (by decide) (by decide)).1⟩

/-- C4 counterexample: at size 192 the mask radius built by the code is 28,
while 0.15 × 192 = 28.8 rounded to the nearest integer is 29: the claimed
rounding rule fails, the code truncates. -/
theorem c4_counterexample :
    bg_radius 192 = 28 ∧ round_nearest (3 * 192) 20 = 29 ∧
      bg_radius 192 ≠ round_nearest (3 * 192) 20 := by decide

/-- C4 (amended): for every positive size the mask radius equals 0.15 × size
truncated to an integer — that is, bg_radius size = ⌊3·size/20⌋, characterized
by 20·r ≤ 3·size < 20·(r+1) — and the mask rounded rectangle is drawn from
(0,0) to (size−1, size−1): every point of the mask region lies within those
bounds. -/
theorem c4_amended (size : Nat) (hs : 0 < size) :
    bg_radius size = 3 * size / 20 ∧
    20 * bg_radius size ≤ 3 * size ∧ 3 * size < 20 * (bg_radius size + 1) ∧
    (∀ x y : Nat, mask_region size x y = true → x ≤ size - 1 ∧ y ≤ size - 1) := by
  refine ⟨rfl, by unfold bg_radius; omega, by unfold bg_radius; omega, ?_⟩
  intro x y hm
  simp only [mask_region, create_rounded_rectangle_mask, in_rounded_rect,
    decide_eq_true_eq] at hm
  obtain ⟨h1, h2, h3, h4, -⟩ := hm
  omega

/-- C4 amended witness at size 192. -/
theorem c4_amended_witness :
    0 < 192 ∧
      (bg_radius 192 = 3 * 192 / 20 ∧
       20 * bg_radius 192 ≤ 3 * 192 ∧ 3 * 192 < 20 * (bg_radius 192 + 1) ∧
       (∀ x y : Nat, mask_region 192 x y = true → x ≤ 192 - 1 ∧ y ≤ 192 - 1)) :=
  ⟨by decide, c4_amended 192 (by decide)⟩

/-- C5: the bytes stored for the icon file are a deterministic function of
the size alone: runs of generate_icon from any two prior worlds store
identical contents, namely the encoding of the drawn icon. -/
theorem c5_deterministic (enc : Image → FileData) (size : Nat) (hs : 0 < size)
    (w₁ w₂ : World) :
    lookup_file (generate_icon enc size w₁) (icon_name size) =
      lookup_file (generate_icon enc size w₂) (icon_name size) ∧
    lookup_file (generate_icon enc size w₁) (icon_name size) =
      some (enc (draw_calendar_icon size)) := by
  constructor <;> simp [generate_icon, save_file, lookup_file]

/-- C5 witness: two concrete prior worlds, a trivial encoder, size 192. -/
theorem c5_deterministic_witness :
    0 < 192 ∧
    (lookup_file (generate_icon (fun _ => ([] : FileData)) 192 []) (icon_name 192) =
       lookup_file (generate_icon (fun _ => ([] : FileData)) 192 [("other.png", [0])])
         (icon_name 192) ∧
     lookup_file (generate_icon (fun _ => ([] : FileData)) 192 []) (icon_name 192) =
       some ((fun _ => ([] : FileData)) (draw_calendar_icon 192))) :=
  ⟨by decide, c5_deterministic (fun _ => ([] : FileData)) 192 (by decide) [] [("other.png", [0])]⟩

/-- C6: when the image-drawing facility cannot be loaded, the program leaves
the files unchanged, exits with status 0, and prints the unavailable notice
followed by the manual fallback instruction. -/
theorem c6_pil_missing (enc : Image → FileData) (fail : Nat → Option String) (w : World) :
    (run_program false enc fail w).1 = w ∧
    (run_program false enc fail w).2.1 = 0 ∧
    (run_program false enc fail w).2.2 = [pil_missing_msg, manual_msg] :=
  ⟨rfl, rfl, rfl⟩

/-- C7: if an exception is raised while generating either icon, the run is
caught at the top level, prints the error report and the fallback advice,
and exits with status 1. -/
theorem c7_generation_failure (enc : Image → FileData) (fail : Nat → Option String)
    (w : World) (e : String)
    (h : fail 192 = some e ∨ (fail 192 = none ∧ fail 512 = some e)) :
    (run_program true enc fail w).2.1 = 1 ∧
    error_msg e ∈ (run_program true enc fail w).2.2 ∧
    fallback_msg ∈ (run_program true enc fail w).2.2 := by
  rcases h with h | ⟨h1, h2⟩
  · simp [run_program, h]
  · simp [run_program, h1, h2]

/-- C7 witness: an oracle that fails at once with message "boom". -/
theorem c7_generation_failure_witness :
    ((fun _ => some "boom" : Nat → Option String) 192 = some "boom" ∨
      ((fun _ => some "boom" : Nat → Option String) 192 = none ∧
       (fun _ => some "boom" : Nat → Option String) 512 = some "boom")) ∧
    ((run_program true (fun _ => ([] : FileData)) (fun _ => some "boom") []).2.1 = 1 ∧
     error_msg "boom" ∈
       (run_program true (fun _ => ([] : FileData)) (fun _ => some "boom") []).2.2 ∧
     fallback_msg ∈
       (run_program true (fun _ => ([] : FileData)) (fun _ => some "boom") []).2.2) :=
  ⟨Or.inl rfl,
    c7_generation_failure (fun _ => ([] : FileData)) (fun _ => some "boom") [] "boom" (Or.inl rfl)⟩

/-- C9: for every positive size the image returned by draw_calendar_icon has
dimensions exactly size × size. -/
theorem c9_dimensions (size : Nat) (hs : 0 < size) :
    (draw_calendar_icon size).width = size ∧ (draw_calendar_icon size).height = size :=
  ⟨rfl, rfl⟩

/-- C9 witness at size 192. -/
theorem c9_dimensions_witness :
    0 < 192 ∧ ((draw_calendar_icon 192).width = 192 ∧ (draw_calendar_icon 192).height = 192) :=
  ⟨by decide, c9_dimensions 192 (by decide)⟩

/-- C3 counterexample: at size 4 the calendar body's left edge sits at x = 0,
strictly outside [0.2 × 4, 0.8 × 4]. -/
theorem c3_counterexample : cal_x 4 = 0 ∧ 5 * cal_x 4 < 4 := by decide

/-- C3 (amended): for every size ≥ 9, every coordinate touched by the
calendar content — the body and header rounded rectangles and all eight dot
bounding boxes of half-width dot_size around their centers — lies within
[0.2 × size, 0.8 × size] on both axes (the bounds are stated multiplied by
five to keep them integral). -/
theorem c3_amended (size : Nat) (hs : 9 ≤ size) :
    size ≤ 5 * cal_x size ∧ 5 * (cal_x size + cal_width size) ≤ 4 * size ∧
    size ≤ 5 * cal_y size ∧ 5 * (cal_y size + cal_height size) ≤ 4 * size ∧
    5 * (cal_y size + header_height size) ≤ 4 * size ∧
    size + 5 * dot_size size ≤ 5 * start_x size ∧
    5 * (start_x size + 2 * dot_spacing size + dot_size size) ≤ 4 * size ∧
    size + 5 * dot_size size ≤ 5 * start_y size ∧
    5 * (row3_y size + dot_size size) ≤ 4 * size := by
  simp only [row3_y, start_x, start_y, cal_x, cal_y, cal_width, cal_height, header_height,
    dot_size, dot_spacing, padding, content_size, safe_zone]
  rcases Nat.eq_zero_or_pos (3 * (size - 2 * (size / 5)) / 20) with h1 | h1 <;>
    rcases Nat.eq_zero_or_pos
      (2 * ((size - 2 * (size / 5)) - 2 * ((size - 2 * (size / 5)) / 5)) / 25) with h2 | h2 <;>
    omega

/-- C3 amended witness at size 192. -/
theorem c3_amended_witness :
    9 ≤ 192 ∧
      (192 ≤ 5 * cal_x 192 ∧ 5 * (cal_x 192 + cal_width 192) ≤ 4 * 192 ∧
       192 ≤ 5 * cal_y 192 ∧ 5 * (cal_y 192 + cal_height 192) ≤ 4 * 192 ∧
       5 * (cal_y 192 + header_height 192) ≤ 4 * 192 ∧
       192 + 5 * dot_size 192 ≤ 5 * start_x 192 ∧
       5 * (start_x 192 + 2 * dot_spacing 192 + dot_size 192) ≤ 4 * 192 ∧
       192 + 5 * dot_size 192 ≤ 5 * start_y 192 ∧
       5 * (row3_y 192 + dot_size 192) ≤ 4 * 192) :=
  ⟨by decide, c3_amended 192 (by decide)⟩

/-- The third dot row overhangs the body bottom once the calendar is at
least 60 pixels wide: 9w/10 < 2(9w/10)/5 + 2(w/4) + 2w/25. -/
theorem dot_overhang (w : Nat) (h : 60 ≤ w) :
    9 * w / 10 < 2 * (9 * w / 10) / 5 + 2 * (w / 4) + 2 * w / 25 := by
  rcases Nat.lt_or_ge w 85 with hw | hw
  · interval_cases w <;> decide
  · omega

/-- C10 counterexample: size 63 has cal_width 25 (so cal_width ≥ 25), yet
the bottom edge of the third dot row coincides with the body's bottom edge
instead of lying strictly below it. -/
theorem c10_counterexample :
    25 ≤ cal_width 63 ∧
      ¬ (cal_y 63 + cal_height 63 < row3_y 63 + dot_size 63) := by decide

/-- C10 (amended): for the tested sizes 192 and 512, and for every size
whose cal_width is at least 60, the bottom edge of the third dot row
(start_y + 2·dot_spacing + dot_size) lies strictly below the calendar
body's bottom edge while still remaining inside the safe zone. -/
theorem c10_amended (size : Nat)
    (h : 60 ≤ cal_width size ∨ size = 192 ∨ size = 512) :
    cal_y size + cal_height size < row3_y size + dot_size size ∧
    5 * (row3_y size + dot_size size) ≤ 4 * size := by
  rcases h with h | h | h
  · have hp := dot_overhang (cal_width size) h
    simp only [cal_width, padding, content_size, safe_zone] at h hp
    simp only [row3_y, start_y, cal_x, cal_y, cal_width, cal_height,
      dot_size, dot_spacing, padding, content_size, safe_zone]
    exact ⟨by omega, by omega⟩
  · subst h; decide
  · subst h; decide

/-- C2 counterexample: at size 6 the mask radius truncates to 0, so the
corner pixel (0,0) keeps the top gradient color (102,110,234) instead of
the white fallback. -/
theorem c2_counterexample : icon_px 6 0 0 = purple ∧ icon_px 6 0 0 ≠ white := by decide

/-- C2 (amended): for every size ≥ 7 (so that the mask radius is at least
one pixel), the four exact corner pixels of the finished icon equal the
white fallback color, while the center pixel (size/2, size/2) lies inside
the rounded mask region and is not the white fallback. -/
theorem c2_amended (size : Nat) (hs : 7 ≤ size) :
    icon_px size 0 0 = white ∧ icon_px size (size - 1) 0 = white ∧
    icon_px size 0 (size - 1) = white ∧ icon_px size (size - 1) (size - 1) = white ∧
    mask_region size (size / 2) (size / 2) = true ∧
    icon_px size (size / 2) (size / 2) ≠ white := by
  have hs0 : 0 < size := by omega
  have hbr : 1 ≤ bg_radius size := by unfold bg_radius; omega
  have hX : 1 ≤ cal_x size := by
    unfold cal_x padding content_size safe_zone; omega
  have hXr : cal_x size + cal_width size + 2 ≤ size := by
    unfold cal_x cal_width padding content_size safe_zone; omega
  have hrow1 : dot_size size < row1_y size := by
    unfold row1_y start_y cal_y cal_height cal_width dot_size padding content_size safe_zone
    omega
  have hrow3 : row3_y size + dot_size size + 2 ≤ size := by
    unfold row3_y start_y cal_y cal_height cal_width dot_size dot_spacing padding
      content_size safe_zone
    rcases Nat.eq_zero_or_pos (3 * (size - 2 * (size / 5)) / 20) with h1 | h1 <;>
      rcases Nat.eq_zero_or_pos
        (2 * ((size - 2 * (size / 5)) - 2 * ((size - 2 * (size / 5)) / 5)) / 25) with h2 | h2 <;>
      omega
  have corner_tl : icon_px size 0 0 = white := by
    obtain ⟨r1, r2, r3⟩ := rows_false_of_y_far size 0 0 (Or.inl (by push_cast; omega))
    have hhf : header_region size 0 0 = false := by
      unfold header_region
      exact in_rr_false_left _ _ _ _ _ _ _ (by push_cast; omega)
    have hbf : body_region size 0 0 = false := by
      unfold body_region
      exact in_rr_false_left _ _ _ _ _ _ _ (by push_cast; omega)
    have hmf : mask_region size 0 0 = false := by
      unfold mask_region create_rounded_rectangle_mask
      apply in_rr_false_tl
      · push_cast; omega
      · push_cast; omega
      · apply in_disk_false_diag
        · push_cast; omega
        · left; push_cast; omega
        · left; push_cast; omega
    rw [icon_px_eq, r3, r2, r1, hhf, hbf, hmf]
    simp
  have corner_tr : icon_px size (size - 1) 0 = white := by
    obtain ⟨r1, r2, r3⟩ := rows_false_of_y_far size (size - 1) 0 (Or.inl (by push_cast; omega))
    have hhf : header_region size (size - 1) 0 = false := by
      unfold header_region
      exact in_rr_false_right _ _ _ _ _ _ _ (by push_cast; omega)
    have hbf : body_region size (size - 1) 0 = false := by
      unfold body_region
      exact in_rr_false_right _ _ _ _ _ _ _ (by push_cast; omega)
    have hmf : mask_region size (size - 1) 0 = false := by
      unfold mask_region create_rounded_rectangle_mask
      apply in_rr_false_tr
      · push_cast; omega
      · push_cast; omega
      · apply in_disk_false_diag
        · push_cast; omega
        · right; push_cast; omega
        · left; push_cast; omega
    rw [icon_px_eq, r3, r2, r1, hhf, hbf, hmf]
    simp
  have corner_bl : icon_px size 0 (size - 1) = white := by
    obtain ⟨r1, r2, r3⟩ :=
      rows_false_of_y_far size 0 (size - 1) (Or.inr (by push_cast; omega))
    have hhf : header_region size 0 (size - 1) = false := by
      unfold header_region
      exact in_rr_false_left _ _ _ _ _ _ _ (by push_cast; omega)
    have hbf : body_region size 0 (size - 1) = false := by
      unfold body_region
      exact in_rr_false_left _ _ _ _ _ _ _ (by push_cast; omega)
    have hmf : mask_region size 0 (size - 1) = false := by
      unfold mask_region create_rounded_rectangle_mask
      apply in_rr_false_bl
      · push_cast; omega
      · push_cast; omega
      · apply in_disk_false_diag
        · push_cast; omega
        · left; push_cast; omega
        · right; push_cast; omega
    rw [icon_px_eq, r3, r2, r1, hhf, hbf, hmf]
    simp
  have corner_br : icon_px size (size - 1) (size - 1) = white := by
    obtain ⟨r1, r2, r3⟩ :=
      rows_false_of_y_far size (size - 1) (size - 1) (Or.inr (by push_cast; omega))
    have hhf : header_region size (size - 1) (size - 1) = false := by
      unfold header_region
      exact in_rr_false_right _ _ _ _ _ _ _ (by push_cast; omega)
    have hbf : body_region size (size - 1) (size - 1) = false := by
      unfold body_region
      exact in_rr_false_right _ _ _ _ _ _ _ (by push_cast; omega)
    have hmf : mask_region size (size - 1) (size - 1) = false := by
      unfold mask_region create_rounded_rectangle_mask
      apply in_rr_false_br
      · push_cast; omega
      · push_cast; omega
      · apply in_disk_false_diag
        · push_cast; omega
        · right; push_cast; omega
        · right; push_cast; omega
    rw [icon_px_eq, r3, r2, r1, hhf, hbf, hmf]
    simp
  have hc1 : bg_radius size ≤ size / 2 := by unfold bg_radius; omega
  have hc2 : size / 2 + bg_radius size + 1 ≤ size := by unfold bg_radius; omega
  have hcm : mask_region size (size / 2) (size / 2) = true := by
    unfold mask_region create_rounded_rectangle_mask
    apply in_rr_true_of_core <;> push_cast <;> omega
  have hc3 : cal_y size + header_height size < size / 2 := by
    unfold cal_y header_height cal_height cal_width padding content_size safe_zone
    rcases Nat.eq_zero_or_pos (3 * (size - 2 * (size / 5)) / 20) with h1 | h1 <;> omega
  have hhf : header_region size (size / 2) (size / 2) = false := by
    unfold header_region
    exact in_rr_false_below _ _ _ _ _ _ _ (by push_cast; omega)
  have hgr : (gradient_stage size).px (size / 2) (size / 2) ≠ white := by
    rw [gradient_stage_px size _ _ (by omega)]
    unfold grad_color white
    intro hEq
    have h255 : (102 * size + 16 * (size / 2)) / size = 255 := congrArg RGB.r hEq
    have hle : (102 * size + 16 * (size / 2)) / size ≤ 110 := by
      have h110 : 102 * size + 16 * (size / 2) ≤ 110 * size := by omega
      calc (102 * size + 16 * (size / 2)) / size ≤ 110 * size / size :=
            Nat.div_le_div_right h110
        _ = 110 := Nat.mul_div_cancel _ hs0
    omega
  refine ⟨corner_tl, corner_tr, corner_bl, corner_br, hcm, ?_⟩
  rw [icon_px_eq]
  simp only [hhf, hcm, Bool.false_eq_true, if_false, if_true]
  split_ifs with h1 h2 h3 h4
  · decide
  · decide
  · decide
  · decide
  · exact hgr

/-- C2 amended witness at size 192. -/
theorem c2_amended_witness :
    7 ≤ 192 ∧
      (icon_px 192 0 0 = white ∧ icon_px 192 (192 - 1) 0 = white ∧
       icon_px 192 0 (192 - 1) = white ∧ icon_px 192 (192 - 1) (192 - 1) = white ∧
       mask_region 192 (192 / 2) (192 / 2) = true ∧
       icon_px 192 (192 / 2) (192 / 2) ≠ white) :=
  ⟨by decide, c2_amended 192 (by decide)⟩

/-- Once the calendar is at least 4 pixels wide, the header band's center
line stays above the top edge of the first dot row:
(9w/10/5)/2 + 2w/25 < 2·(9w/10)/5. -/
theorem header_clears_dots (w : Nat) (h : 4 ≤ w) :
    (9 * w / 10 / 5) / 2 + 2 * w / 25 < 2 * (9 * w / 10) / 5 := by
  rcases Nat.lt_or_ge w 40 with hw | hw
  · interval_cases w <;> decide
  · omega

/-- C8 counterexample: at size 1 every geometry parameter collapses to 0,
the dots land on the header center, and the header-center pixel of the
finished icon is the dot purple (102,110,234), not pure white. -/
theorem c8_counterexample :
    icon_px 1 (cal_x 1 + cal_width 1 / 2) (cal_y 1 + header_height 1 / 2) = purple ∧
    icon_px 1 (cal_x 1 + cal_width 1 / 2) (cal_y 1 + header_height 1 / 2) ≠ white := by
  decide

/-- C8 (amended): for every size ≥ 2, the header band covers the top
int(0.2 × cal_height) of the body with corner radius int(0.04 × size), and
the pixel at the center of the header band in the finished icon is pure
white (255,255,255). -/
theorem c8_amended (size : Nat) (hs : 2 ≤ size) :
    header_height size = cal_height size / 5 ∧ cal_radius size = size / 25 ∧
    icon_px size (cal_x size + cal_width size / 2)
      (cal_y size + header_height size / 2) = white := by
  refine ⟨rfl, rfl, ?_⟩
  rcases Nat.lt_or_ge size 8 with h8 | h8
  · interval_cases size <;> decide
  · have hw4 : 4 ≤ cal_width size := by
      simp only [cal_width, padding, content_size, safe_zone]; omega
    have hA : cal_y size + header_height size / 2 + dot_size size < row1_y size := by
      have hsep := header_clears_dots (cal_width size) hw4
      simp only [row1_y, start_y, header_height, cal_height, dot_size] at hsep ⊢
      omega
    obtain ⟨r1, r2, r3⟩ := rows_false_of_y_far size (cal_x size + cal_width size / 2)
      (cal_y size + header_height size / 2) (Or.inl (by push_cast; omega))
    have hE1 : cal_radius size ≤ cal_width size / 2 := by
      unfold cal_radius cal_width padding content_size safe_zone; omega
    have hE2 : cal_width size / 2 + cal_radius size ≤ cal_width size := by
      unfold cal_radius cal_width padding content_size safe_zone; omega
    have hht : header_region size (cal_x size + cal_width size / 2)
        (cal_y size + header_height size / 2) = true := by
      unfold header_region
      apply in_rr_true_of_core <;> push_cast <;> omega
    rw [icon_px_eq, r3, r2, r1, hht]
    simp

/-- C8 amended witness at size 192. -/
theorem c8_amended_witness :
    2 ≤ 192 ∧
      (header_height 192 = cal_height 192 / 5 ∧ cal_radius 192 = 192 / 25 ∧
       icon_px 192 (cal_x 192 + cal_width 192 / 2)
         (cal_y 192 + header_height 192 / 2) = white) :=
  ⟨by decide, c8_amended 192 (by decide)⟩

/-- C10 amended witness at size 192. -/
theorem c10_amended_witness :
    (60 ≤ cal_width 192 ∨ 192 = 192 ∨ 192 = 512) ∧
      (cal_y 192 + cal_height 192 < row3_y 192 + dot_size 192 ∧
       5 * (row3_y 192 + dot_size 192) ≤ 4 * 192) :=
  ⟨Or.inr (Or.inl rfl), c10_amended 192 (Or.inr (Or.inl rfl))⟩

end AuraFlow
